import Mathlib

/-!
Shallow embedding of the employee-tracker backend (src/index.js and the
sibling drafts under src/unnamed/), together with proofs about the
seat-limit gate, the attendance tap toggle, tenant isolation, the
registration flow, the subscription webhook, and the read endpoints.

The relational store (SQLite, five tables from src/database.js and the
setupDatabase drafts) is modelled as lists of rows; SQL statements are
translated query by query.  Machine-level details (HTTP framing, JWT
signing, bcrypt internals, Stripe) are external collaborators and appear
as opaque-to-the-model parameters only where a decision depends on them.
-/

/-- Row of the companies table (src/database.js plus the migration columns
subscription_plan, max_employees, subscription_status, stripe_customer_id
added by setupDatabase in src/unnamed/part_004 / part_005). -/
structure Company where
  id : Nat
  name : String
  subscription_plan : String
  max_employees : Nat
  subscription_status : String
  stripe_customer_id : Option String
deriving DecidableEq, Repr

/-- Row of the users table. -/
structure UserRow where
  id : Nat
  company_id : Nat
  email : String
  password_hash : String
deriving DecidableEq, Repr

/-- Row of the kiosks table. -/
structure Kiosk where
  id : Nat
  company_id : Nat
  name : String
  api_key : String
deriving DecidableEq, Repr

/-- Row of the employees table; schema has UNIQUE(company_id, nfc_card_id). -/
structure Employee where
  id : Nat
  company_id : Nat
  name : String
  nfc_card_id : String
deriving DecidableEq, Repr

/-- Row of the attendance_logs table.  Timestamps are abstracted as
naturals; kiosk_id is nullable in the schema. -/
structure AttendanceLog where
  id : Nat
  company_id : Nat
  employee_id : Nat
  kiosk_id : Option Nat
  nfc_card_id : String
  event_type : String
  timestamp : Nat
deriving DecidableEq, Repr

/-- The whole store: the five tables of src/database.js. -/
structure DB where
  companies : List Company
  users : List UserRow
  kiosks : List Kiosk
  employees : List Employee
  attendance_logs : List AttendanceLog
deriving DecidableEq, Repr

/-- Result of an HTTP handler: status code and message, as sent by
res.status(s).json({message}). -/
structure ApiResult where
  status : Nat
  message : String
deriving DecidableEq, Repr

/-- SELECT max_employees, subscription_status FROM companies WHERE id = ?
(db.get returns the first matching row). -/
def findCompany (db : DB) (cid : Nat) : Option Company :=
  db.companies.find? (fun c => c.id == cid)

/-- SELECT COUNT(*) AS count FROM employees WHERE company_id = ?. -/
def employeeCount (db : DB) (cid : Nat) : Nat :=
  (db.employees.filter (fun e => e.company_id == cid)).length

/-- Outcome of the checkEmployeeLimit middleware: fall through to the
route handler, or answer early with a status and message. -/
inductive GateResult
  | permit
  | reject (status : Nat) (message : String)
deriving DecidableEq, Repr

/-- The checkEmployeeLimit middleware of src/index.js (lines 124-141):
look up the company, reject 403 if missing, reject 403 if the
subscription status is not active, reject 403 if the live employee count
has reached max_employees, otherwise call next(). -/
def checkEmployeeLimit (db : DB) (cid : Nat) : GateResult :=
  match findCompany db cid with
  | none => GateResult.reject 403 "Company not found."
  | some company =>
    if company.subscription_status ≠ "active" then
      GateResult.reject 403 "Your subscription is not active. Please check your billing."
    else if employeeCount db cid ≥ company.max_employees then
      GateResult.reject 403
        ("Employee limit of " ++ toString company.max_employees ++ " reached. Please upgrade your plan.")
    else GateResult.permit

/-- The UNIQUE(company_id, nfc_card_id) constraint of the employees
table: the INSERT succeeds exactly when no row with this pair exists. -/
def employeesInsertOk (db : DB) (cid : Nat) (card : String) : Bool :=
  db.employees.all (fun e => !(e.company_id == cid && e.nfc_card_id == card))

/-- INSERT INTO employees (company_id, name, nfc_card_id) VALUES (?, ?, ?),
with the fresh AUTOINCREMENT id passed explicitly. -/
def insertEmployee (db : DB) (newId cid : Nat) (ename card : String) : DB :=
  { db with employees := db.employees ++ [⟨newId, cid, ename, card⟩] }

/-- POST /api/employees of src/index.js (lines 193-203), run after
authenticateToken and checkEmployeeLimit: 400 on a missing field, 409 on
the uniqueness constraint, otherwise insert and answer 201. -/
def postEmployees (db : DB) (cid : Nat) (ename card : String) (newId : Nat) : DB × ApiResult :=
  match checkEmployeeLimit db cid with
  | GateResult.reject s m => (db, ⟨s, m⟩)
  | GateResult.permit =>
    if ename = "" ∨ card = "" then (db, ⟨400, "Name and NFC card ID are required."⟩)
    else if employeesInsertOk db cid card then
      (insertEmployee db newId cid ename card, ⟨201, "Employee added successfully."⟩)
    else (db, ⟨409, "Failed to add employee. That Card ID is already in use."⟩)

lemma findCompany_eq_some_iff (db : DB) (cid : Nat) (c : Company)
    (hids : (db.companies.map Company.id).Nodup) :
    findCompany db cid = some c ↔ c ∈ db.companies ∧ c.id = cid := by
  constructor
  · intro h
    have hmem := List.mem_of_find?_eq_some h
    have hp := List.find?_some h
    exact ⟨hmem, by simpa using hp⟩
  · rintro ⟨hmem, hid⟩
    cases hfind : findCompany db cid with
    | none =>
      have := List.find?_eq_none.mp hfind c hmem
      simp [hid] at this
    | some c' =>
      have hmem' := List.mem_of_find?_eq_some hfind
      have hp' : c'.id = cid := by simpa using List.find?_some hfind
      have : c' = c :=
        List.inj_on_of_nodup_map hids hmem' hmem (by rw [hp', hid])
      rw [this]

lemma checkEmployeeLimit_of_none (db : DB) (cid : Nat)
    (h : findCompany db cid = none) :
    checkEmployeeLimit db cid = GateResult.reject 403 "Company not found." := by
  unfold checkEmployeeLimit
  rw [h]

lemma checkEmployeeLimit_of_some (db : DB) (cid : Nat) (c : Company)
    (h : findCompany db cid = some c) :
    checkEmployeeLimit db cid =
      (if c.subscription_status ≠ "active" then
        GateResult.reject 403 "Your subscription is not active. Please check your billing."
      else if employeeCount db cid ≥ c.max_employees then
        GateResult.reject 403
          ("Employee limit of " ++ toString c.max_employees ++ " reached. Please upgrade your plan.")
      else GateResult.permit) := by
  unfold checkEmployeeLimit
  rw [h]

lemma checkEmployeeLimit_reject_status (db : DB) (cid : Nat) (s : Nat) (m : String)
    (h : checkEmployeeLimit db cid = GateResult.reject s m) : s = 403 := by
  cases hfind : findCompany db cid with
  | none =>
    rw [checkEmployeeLimit_of_none db cid hfind] at h
    injection h with h1 _
    exact h1.symm
  | some c =>
    rw [checkEmployeeLimit_of_some db cid c hfind] at h
    by_cases h1 : c.subscription_status ≠ "active"
    · rw [if_pos h1] at h
      injection h with h1 _
      exact h1.symm
    · rw [if_neg h1] at h
      by_cases h2 : employeeCount db cid ≥ c.max_employees
      · rw [if_pos h2] at h
        injection h with h1 _
        exact h1.symm
      · rw [if_neg h2] at h
        cases h

lemma postEmployees_of_reject (db : DB) (cid newId : Nat) (ename card : String)
    (s : Nat) (m : String) (h : checkEmployeeLimit db cid = GateResult.reject s m) :
    postEmployees db cid ename card newId = (db, ⟨s, m⟩) := by
  unfold postEmployees
  rw [h]

lemma checkEmployeeLimit_permit_iff (db : DB) (cid : Nat)
    (hids : (db.companies.map Company.id).Nodup) :
    checkEmployeeLimit db cid = GateResult.permit ↔
      ∃ c ∈ db.companies, c.id = cid ∧ c.subscription_status = "active" ∧
        employeeCount db cid < c.max_employees := by
  cases hfind : findCompany db cid with
  | none =>
    rw [checkEmployeeLimit_of_none db cid hfind]
    constructor
    · intro h
      cases h
    · rintro ⟨c, hmem, hid, -, -⟩
      have hsome := (findCompany_eq_some_iff db cid c hids).mpr ⟨hmem, hid⟩
      exact Option.noConfusion (hfind ▸ hsome)
  | some c =>
    have hc := (findCompany_eq_some_iff db cid c hids).mp hfind
    rw [checkEmployeeLimit_of_some db cid c hfind]
    by_cases h1 : c.subscription_status ≠ "active"
    · rw [if_pos h1]
      constructor
      · intro h
        cases h
      · rintro ⟨c', hmem', hid', hact', -⟩
        have hsome := (findCompany_eq_some_iff db cid c' hids).mpr ⟨hmem', hid'⟩
        have hcc : c' = c := Option.some.inj (hsome.symm.trans hfind)
        exact absurd (hcc ▸ hact') h1
    · rw [if_neg h1]
      by_cases h2 : employeeCount db cid ≥ c.max_employees
      · rw [if_pos h2]
        constructor
        · intro h
          cases h
        · rintro ⟨c', hmem', hid', -, hcnt'⟩
          have hsome := (findCompany_eq_some_iff db cid c' hids).mpr ⟨hmem', hid'⟩
          have hcc : c' = c := Option.some.inj (hsome.symm.trans hfind)
          rw [hcc] at hcnt'
          omega
      · rw [if_neg h2]
        constructor
        · intro _
          exact ⟨c, hc.1, hc.2, not_not.mp h1, lt_of_not_ge h2⟩
        · intro _
          rfl

/-- C1: for an add-employee request the seat-limit gate permits the insert
if and only if the user's company exists, its subscription_status is
"active", and the current employee count of the company is strictly below
max_employees; on any other outcome the gate answers a 403 capacity/status
error and the request leaves the store unchanged, so no employee row is
inserted. -/
theorem C1_seat_limit_gate (db : DB) (cid newId : Nat) (ename card : String)
    (hids : (db.companies.map Company.id).Nodup) :
    (checkEmployeeLimit db cid = GateResult.permit ↔
      ∃ c ∈ db.companies, c.id = cid ∧ c.subscription_status = "active" ∧
        employeeCount db cid < c.max_employees) ∧
    (∀ s m, checkEmployeeLimit db cid = GateResult.reject s m →
      s = 403 ∧ postEmployees db cid ename card newId = (db, ⟨403, m⟩)) := by
  refine ⟨checkEmployeeLimit_permit_iff db cid hids, ?_⟩
  intro s m h
  have hs := checkEmployeeLimit_reject_status db cid s m h
  subst hs
  exact ⟨rfl, postEmployees_of_reject db cid newId ename card 403 m h⟩

/-- Concrete store used to witness C1: one company whose subscription is
canceled, so the gate rejects. -/
def dbC1 : DB :=
  ⟨[⟨1, "Acme", "free", 5, "canceled", none⟩], [], [], [], []⟩

theorem C1_seat_limit_gate_witness :
    (checkEmployeeLimit dbC1 1 = GateResult.permit ↔
      ∃ c ∈ dbC1.companies, c.id = 1 ∧ c.subscription_status = "active" ∧
        employeeCount dbC1 1 < c.max_employees) ∧
    (∀ s m, checkEmployeeLimit dbC1 1 = GateResult.reject s m →
      s = 403 ∧ postEmployees dbC1 1 "Sam" "CARD1" 7 = (dbC1, ⟨403, m⟩)) :=
  C1_seat_limit_gate dbC1 1 7 "Sam" "CARD1" (by decide)

/-- Rows of the attendance_logs table that belong to one employee
(the WHERE employee_id = ? clause). -/
def logsFor (db : DB) (eid : Nat) : List AttendanceLog :=
  db.attendance_logs.filter (fun l => l.employee_id == eid)

/-- One comparison step of ORDER BY timestamp DESC LIMIT 1: keep the later
row, preferring the later-inserted row on equal timestamps. -/
def pickLater (acc : Option AttendanceLog) (l : AttendanceLog) : Option AttendanceLog :=
  match acc with
  | none => some l
  | some m => if m.timestamp ≤ l.timestamp then some l else some m

/-- SELECT event_type FROM attendance_logs WHERE employee_id = ?
ORDER BY timestamp DESC LIMIT 1 (src/index.js line 222). -/
def mostRecentLog (db : DB) (eid : Nat) : Option AttendanceLog :=
  (logsFor db eid).foldl pickLater none

/-- The toggle of src/index.js line 223:
(!lastLog || lastLog.event_type === a clock-out) ? clock-in : clock-out. -/
def nextEventType (lastLog : Option AttendanceLog) : String :=
  match lastLog with
  | none => "clock-in"
  | some l => if l.event_type = "clock-out" then "clock-in" else "clock-out"

/-- SELECT id, name FROM employees WHERE company_id = ? AND nfc_card_id = ?
(src/index.js line 220). -/
def findEmployeeByCard (db : DB) (cid : Nat) (card : String) : Option Employee :=
  db.employees.find? (fun e => e.company_id == cid && e.nfc_card_id == card)

/-- Response of the tap route: status, the success flag, the display
message, and the action field (absent on failure paths). -/
structure TapResponse where
  status : Nat
  success : Bool
  message : String
  action : Option String
deriving DecidableEq, Repr

/-- POST /api/kiosk/tap of src/index.js (lines 215-238), after the kiosk
is authenticated: 400 on a missing card id, 404 when the card resolves to
no employee of the kiosk's company, otherwise append one log row whose
event_type toggles the most recent one. -/
def kioskTap (db : DB) (kioskCid kioskId : Nat) (card : String) (now newId : Nat) :
    DB × TapResponse :=
  if card = "" then (db, ⟨400, false, "NFC Card ID is required.", none⟩)
  else
    match findEmployeeByCard db kioskCid card with
    | none => (db, ⟨404, false, "Card not recognized.", none⟩)
    | some e =>
      let newEventType := nextEventType (mostRecentLog db e.id)
      ({ db with attendance_logs := db.attendance_logs ++
          [⟨newId, kioskCid, e.id, some kioskId, card, newEventType, now⟩] },
       ⟨200, true,
        e.name ++ "\n" ++ (if newEventType = "clock-in" then "Clocked In" else "Clocked Out"),
        some newEventType⟩)

/-- The authenticateKiosk middleware (src/index.js lines 111-122):
SELECT id, company_id FROM kiosks WHERE api_key = ?. -/
def authenticateKiosk (db : DB) (apiKey : String) : Option Kiosk :=
  db.kiosks.find? (fun k => k.api_key == apiKey)

/-- The full tap route: kiosk authentication fixing company_id, then the
tap handler. -/
def tapEndpoint (db : DB) (apiKey card : String) (now newId : Nat) : DB × TapResponse :=
  if apiKey = "" then (db, ⟨401, false, "API Key is missing.", none⟩)
  else
    match authenticateKiosk db apiKey with
    | none => (db, ⟨403, false, "Invalid API Key.", none⟩)
    | some k => kioskTap db k.company_id k.id card now newId

/-- A sequence of taps of the same card at the same kiosk; each element
carries the row's CURRENT_TIMESTAMP and its fresh AUTOINCREMENT id. -/
def runTaps (db : DB) (kioskCid kioskId : Nat) (card : String) :
    List (Nat × Nat) → DB
  | [] => db
  | (t, i) :: rest =>
    runTaps (kioskTap db kioskCid kioskId card t i).1 kioskCid kioskId card rest

/-- The expected strict alternation: clock-in on even positions, clock-out
on odd ones. -/
def altEvent (i : Nat) : String := if i % 2 = 0 then "clock-in" else "clock-out"

lemma kioskTap_found (db : DB) (cid kid : Nat) (card : String) (now newId : Nat)
    (e : Employee) (hcard : card ≠ "") (he : findEmployeeByCard db cid card = some e) :
    kioskTap db cid kid card now newId =
      ({ db with attendance_logs := db.attendance_logs ++
          [⟨newId, cid, e.id, some kid, card, nextEventType (mostRecentLog db e.id), now⟩] },
       ⟨200, true,
        e.name ++ "\n" ++
          (if nextEventType (mostRecentLog db e.id) = "clock-in" then "Clocked In" else "Clocked Out"),
        some (nextEventType (mostRecentLog db e.id))⟩) := by
  unfold kioskTap
  rw [if_neg hcard, he]

lemma kioskTap_not_found (db : DB) (cid kid : Nat) (card : String) (now newId : Nat)
    (hcard : card ≠ "") (he : findEmployeeByCard db cid card = none) :
    kioskTap db cid kid card now newId = (db, ⟨404, false, "Card not recognized.", none⟩) := by
  unfold kioskTap
  rw [if_neg hcard, he]

lemma kioskTap_employees (db : DB) (cid kid : Nat) (card : String) (now newId : Nat) :
    ((kioskTap db cid kid card now newId).1).employees = db.employees := by
  by_cases hcard : card = ""
  · unfold kioskTap
    rw [if_pos hcard]
  · cases hfe : findEmployeeByCard db cid card with
    | none => rw [kioskTap_not_found db cid kid card now newId hcard hfe]
    | some e => rw [kioskTap_found db cid kid card now newId e hcard hfe]

lemma findEmployeeByCard_congr (db1 db2 : DB) (cid : Nat) (card : String)
    (h : db1.employees = db2.employees) :
    findEmployeeByCard db1 cid card = findEmployeeByCard db2 cid card := by
  unfold findEmployeeByCard
  rw [h]

lemma foldl_pickLater_mem :
    ∀ (xs : List AttendanceLog) (acc : Option AttendanceLog) (m : AttendanceLog),
      xs.foldl pickLater acc = some m → m ∈ xs ∨ acc = some m := by
  intro xs
  induction xs with
  | nil =>
    intro acc m h
    exact Or.inr h
  | cons x rest ih =>
    intro acc m h
    rcases ih (pickLater acc x) m h with hmem | hacc
    · exact Or.inl (List.mem_cons_of_mem x hmem)
    · cases acc with
      | none =>
        have hx : x = m := by simpa [pickLater] using hacc
        cases hx
        exact Or.inl (List.mem_cons_self x rest)
      | some a =>
        by_cases hle : a.timestamp ≤ x.timestamp
        · have hx : x = m := by simpa [pickLater, hle] using hacc
          cases hx
          exact Or.inl (List.mem_cons_self x rest)
        · have ha : a = m := by simpa [pickLater, hle] using hacc
          exact Or.inr (by rw [ha])

lemma mostRecentLog_append_fresh (db : DB) (eid : Nat) (l : AttendanceLog)
    (hl : l.employee_id = eid)
    (hfresh : ∀ x ∈ logsFor db eid, x.timestamp ≤ l.timestamp) :
    mostRecentLog { db with attendance_logs := db.attendance_logs ++ [l] } eid = some l := by
  have hfilter :
      logsFor { db with attendance_logs := db.attendance_logs ++ [l] } eid
        = logsFor db eid ++ [l] := by
    unfold logsFor
    rw [List.filter_append]
    simp [hl]
  unfold mostRecentLog
  rw [hfilter, List.foldl_append]
  cases hacc : (logsFor db eid).foldl pickLater none with
  | none => rfl
  | some m =>
    have hmem : m ∈ logsFor db eid := by
      rcases foldl_pickLater_mem (logsFor db eid) none m hacc with h | h
      · exact h
      · cases h
    have := hfresh m hmem
    simp [pickLater, this]

lemma altEvent_next (k : Nat) :
    (if altEvent k = "clock-out" then "clock-in" else "clock-out") = altEvent (k + 1) := by
  unfold altEvent
  by_cases h : k % 2 = 0
  · have h1 : ¬(k + 1) % 2 = 0 := by omega
    rw [if_pos h, if_neg h1, if_neg (by decide)]
  · have h1 : (k + 1) % 2 = 0 := by omega
    rw [if_neg h, if_pos h1, if_pos rfl]

lemma runTaps_invariant (cid kid : Nat) (card : String) (e : Employee) (hcard : card ≠ "") :
    ∀ (ts : List (Nat × Nat)) (db : DB) (k : Nat),
      findEmployeeByCard db cid card = some e →
      (logsFor db e.id).map AttendanceLog.event_type = (List.range k).map altEvent →
      nextEventType (mostRecentLog db e.id) = altEvent k →
      (∀ x ∈ logsFor db e.id, ∀ q ∈ ts, x.timestamp < q.1) →
      ts.Pairwise (fun a b => a.1 < b.1) →
      (logsFor (runTaps db cid kid card ts) e.id).map AttendanceLog.event_type
        = (List.range (k + ts.length)).map altEvent := by
  intro ts
  induction ts with
  | nil =>
    intro db k hfe hev _ _ _
    simpa [runTaps] using hev
  | cons q rest ih =>
    intro db k hfe hev hnext hfr hp
    obtain ⟨t, i⟩ := q
    have htap := kioskTap_found db cid kid card t i e hcard hfe
    rw [hnext] at htap
    have hstep : runTaps db cid kid card ((t, i) :: rest)
        = runTaps (kioskTap db cid kid card t i).1 cid kid card rest := rfl
    have hfst : (kioskTap db cid kid card t i).1
        = { db with attendance_logs := db.attendance_logs ++
            [⟨i, cid, e.id, some kid, card, altEvent k, t⟩] } := by
      rw [htap]
    have hfe' : findEmployeeByCard
        { db with attendance_logs := db.attendance_logs ++
            [⟨i, cid, e.id, some kid, card, altEvent k, t⟩] } cid card = some e := hfe
    have hlogs2 : logsFor
        { db with attendance_logs := db.attendance_logs ++
            [⟨i, cid, e.id, some kid, card, altEvent k, t⟩] } e.id
        = logsFor db e.id ++ [⟨i, cid, e.id, some kid, card, altEvent k, t⟩] := by
      unfold logsFor
      rw [List.filter_append]
      simp
    have hev' : (logsFor
        { db with attendance_logs := db.attendance_logs ++
            [⟨i, cid, e.id, some kid, card, altEvent k, t⟩] } e.id).map
          AttendanceLog.event_type = (List.range (k + 1)).map altEvent := by
      rw [hlogs2, List.map_append, hev, List.range_succ, List.map_append]
      rfl
    have hmost2 : mostRecentLog
        { db with attendance_logs := db.attendance_logs ++
            [⟨i, cid, e.id, some kid, card, altEvent k, t⟩] } e.id
        = some ⟨i, cid, e.id, some kid, card, altEvent k, t⟩ :=
      mostRecentLog_append_fresh db e.id _ rfl
        (fun x hx => le_of_lt (hfr x hx (t, i) (List.mem_cons_self _ _)))
    have hnext' : nextEventType (mostRecentLog
        { db with attendance_logs := db.attendance_logs ++
            [⟨i, cid, e.id, some kid, card, altEvent k, t⟩] } e.id) = altEvent (k + 1) := by
      rw [hmost2]
      exact altEvent_next k
    have hfr' : ∀ x ∈ logsFor
        { db with attendance_logs := db.attendance_logs ++
            [⟨i, cid, e.id, some kid, card, altEvent k, t⟩] } e.id,
        ∀ q ∈ rest, x.timestamp < q.1 := by
      intro x hx q hq
      rw [hlogs2] at hx
      rcases List.mem_append.mp hx with hold | hnew
      · exact hfr x hold q (List.mem_cons_of_mem _ hq)
      · have hx2 : x = ⟨i, cid, e.id, some kid, card, altEvent k, t⟩ := by
          simpa using hnew
        rw [hx2]
        exact (List.pairwise_cons.mp hp).1 q hq
    have hp' : rest.Pairwise (fun a b => a.1 < b.1) := (List.pairwise_cons.mp hp).2
    have main := ih _ (k + 1) hfe' hev' hnext' hfr' hp'
    rw [hstep, hfst, main]
    have harith : k + 1 + rest.length = k + ((t, i) :: rest).length := by
      simp [List.length_cons]
      omega
    rw [harith]

/-- C2: when a tap resolves an employee, the handler appends exactly one
log row whose event_type is computed from the most recent log row of that
employee (ORDER BY timestamp DESC LIMIT 1): clock-in when there is no
prior log, clock-in exactly when the most recent row is clock-out and
clock-out otherwise; consequently, starting from no prior logs, any
sequence of taps with strictly increasing timestamps records the strictly
alternating sequence clock-in, clock-out, clock-in, ... regardless of the
elapsed time between taps. -/
theorem C2_tap_toggle (db : DB) (cid kid now newId : Nat) (card : String) (e : Employee)
    (ts : List (Nat × Nat)) (hcard : card ≠ "")
    (he : findEmployeeByCard db cid card = some e)
    (hts : ts.Pairwise (fun a b => a.1 < b.1)) :
    ((kioskTap db cid kid card now newId).1.attendance_logs =
      db.attendance_logs ++
        [⟨newId, cid, e.id, some kid, card, nextEventType (mostRecentLog db e.id), now⟩]) ∧
    (logsFor db e.id = [] → nextEventType (mostRecentLog db e.id) = "clock-in") ∧
    (∀ m, mostRecentLog db e.id = some m →
      (nextEventType (mostRecentLog db e.id) = "clock-in" ↔ m.event_type = "clock-out") ∧
      (nextEventType (mostRecentLog db e.id) = "clock-out" ↔ m.event_type ≠ "clock-out")) ∧
    (logsFor db e.id = [] →
      (logsFor (runTaps db cid kid card ts) e.id).map AttendanceLog.event_type
        = (List.range ts.length).map altEvent) ∧
    (∀ i, altEvent (i + 1) ≠ altEvent i) := by
  refine ⟨?_, ?_, ?_, ?_, ?_⟩
  · rw [kioskTap_found db cid kid card now newId e hcard he]
  · intro h
    have hmost : mostRecentLog db e.id = none := by
      unfold mostRecentLog
      rw [h]
      rfl
    rw [hmost]
    rfl
  · intro m hm
    rw [hm]
    have hnm : nextEventType (some m)
        = if m.event_type = "clock-out" then "clock-in" else "clock-out" := rfl
    rw [hnm]
    by_cases hevt : m.event_type = "clock-out"
    · rw [if_pos hevt]
      exact ⟨⟨fun _ => hevt, fun _ => rfl⟩,
        ⟨fun hco => absurd hco (by decide), fun hne => absurd hevt hne⟩⟩
    · rw [if_neg hevt]
      exact ⟨⟨fun hio => absurd hio (by decide), fun hco => absurd hco hevt⟩,
        ⟨fun _ => hevt, fun _ => rfl⟩⟩
  · intro h
    have hev0 : (logsFor db e.id).map AttendanceLog.event_type
        = (List.range 0).map altEvent := by
      rw [h]
      rfl
    have hmost : mostRecentLog db e.id = none := by
      unfold mostRecentLog
      rw [h]
      rfl
    have hnext0 : nextEventType (mostRecentLog db e.id) = altEvent 0 := by
      rw [hmost]
      rfl
    have hfr0 : ∀ x ∈ logsFor db e.id, ∀ q ∈ ts, x.timestamp < q.1 := by
      rw [h]
      intro x hx
      cases hx
    simpa using runTaps_invariant cid kid card e hcard ts db 0 he hev0 hnext0 hfr0 hts
  · intro i
    unfold altEvent
    by_cases hpar : i % 2 = 0
    · have h1 : ¬(i + 1) % 2 = 0 := by omega
      rw [if_pos hpar, if_neg h1]
      decide
    · have h1 : (i + 1) % 2 = 0 := by omega
      rw [if_neg hpar, if_pos h1]
      decide

/-- Concrete store used to witness C2: one employee with card C1 and no
prior attendance logs, tapped twice at timestamps 5 and 9. -/
def dbC2 : DB :=
  ⟨[⟨1, "Acme", "free", 5, "active", none⟩], [], [⟨1, 1, "Main Kiosk", "K1"⟩],
   [⟨1, 1, "Sam", "C1"⟩], []⟩

theorem C2_tap_toggle_witness :
    ((kioskTap dbC2 1 1 "C1" 5 10).1.attendance_logs =
      dbC2.attendance_logs ++
        [⟨10, 1, (1 : Nat), some 1, "C1", nextEventType (mostRecentLog dbC2 1), 5⟩]) ∧
    (logsFor dbC2 1 = [] → nextEventType (mostRecentLog dbC2 1) = "clock-in") ∧
    (∀ m, mostRecentLog dbC2 1 = some m →
      (nextEventType (mostRecentLog dbC2 1) = "clock-in" ↔ m.event_type = "clock-out") ∧
      (nextEventType (mostRecentLog dbC2 1) = "clock-out" ↔ m.event_type ≠ "clock-out")) ∧
    (logsFor dbC2 1 = [] →
      (logsFor (runTaps dbC2 1 1 "C1" [(5, 10), (9, 11)]) 1).map AttendanceLog.event_type
        = (List.range (List.length [(5, 10), (9, 11)])).map altEvent) ∧
    (∀ i, altEvent (i + 1) ≠ altEvent i) :=
  C2_tap_toggle dbC2 1 1 5 10 "C1" ⟨1, 1, "Sam", "C1"⟩ [(5, 10), (9, 11)]
    (by decide) (by decide) (by decide)

lemma tapEndpoint_auth (db : DB) (apiKey card : String) (now newId : Nat) (k : Kiosk)
    (hkey : apiKey ≠ "") (hauth : authenticateKiosk db apiKey = some k) :
    tapEndpoint db apiKey card now newId = kioskTap db k.company_id k.id card now newId := by
  unfold tapEndpoint
  rw [if_neg hkey, hauth]

/-- C4: a tap at an authenticated kiosk looks the card up only against the
kiosk's own company: any employee it resolves belongs to that company and
carries exactly the presented card id (so a card of another tenant can
never resolve), and when no employee of the kiosk's company holds the
card the route answers 404 card-not-recognized and leaves the store,
including the attendance log, unchanged. -/
theorem C4_tenant_isolation (db : DB) (apiKey card : String) (now newId : Nat) (k : Kiosk)
    (hkey : apiKey ≠ "") (hauth : authenticateKiosk db apiKey = some k) (hcard : card ≠ "") :
    (∀ e, findEmployeeByCard db k.company_id card = some e →
      e ∈ db.employees ∧ e.company_id = k.company_id ∧ e.nfc_card_id = card) ∧
    ((∀ e ∈ db.employees, ¬(e.company_id = k.company_id ∧ e.nfc_card_id = card)) →
      tapEndpoint db apiKey card now newId = (db, ⟨404, false, "Card not recognized.", none⟩)) := by
  constructor
  · intro e hfe
    have hmem := List.mem_of_find?_eq_some hfe
    have hp := List.find?_some hfe
    simp only [Bool.and_eq_true, beq_iff_eq] at hp
    exact ⟨hmem, hp.1, hp.2⟩
  · intro hnone
    have hfind : findEmployeeByCard db k.company_id card = none := by
      apply List.find?_eq_none.mpr
      intro e hmem
      simp only [Bool.and_eq_true, beq_iff_eq]
      exact hnone e hmem
    rw [tapEndpoint_auth db apiKey card now newId k hkey hauth,
      kioskTap_not_found db k.company_id k.id card now newId hcard hfind]

/-- Concrete store used to witness C4: company 1 holds an employee with
card X, the kiosk belongs to company 2 which has no employee at all, so
the tap must not resolve company 1's employee. -/
def dbC4 : DB :=
  ⟨[⟨1, "A", "free", 5, "active", none⟩, ⟨2, "B", "free", 5, "active", none⟩],
   [], [⟨1, 2, "Main Kiosk", "KB"⟩], [⟨1, 1, "Ann", "X"⟩], []⟩

theorem C4_tenant_isolation_witness :
    ((∀ e, findEmployeeByCard dbC4 2 "X" = some e →
        e ∈ dbC4.employees ∧ e.company_id = 2 ∧ e.nfc_card_id = "X") ∧
      ((∀ e ∈ dbC4.employees, ¬(e.company_id = 2 ∧ e.nfc_card_id = "X")) →
        tapEndpoint dbC4 "KB" "X" 5 9 = (dbC4, ⟨404, false, "Card not recognized.", none⟩))) ∧
    tapEndpoint dbC4 "KB" "X" 5 9 = (dbC4, ⟨404, false, "Card not recognized.", none⟩) := by
  have h := C4_tenant_isolation dbC4 "KB" "X" 5 9 ⟨1, 2, "Main Kiosk", "KB"⟩
    (by decide) (by decide) (by decide)
  exact ⟨h, h.2 (by decide)⟩

/-- One entry of the SUBSCRIPTION_PLANS map of src/index.js (lines 44-49). -/
structure PlanDetails where
  name : String
  max_employees : Nat
  price : Nat
  priceId : Option String
deriving DecidableEq, Repr

/-- The SUBSCRIPTION_PLANS catalog of src/index.js: plan key, display
name, seat cap, monthly price and the Stripe price identifier (absent for
the free plan). -/
def SUBSCRIPTION_PLANS : List (String × PlanDetails) :=
  [("free", ⟨"Free", 5, 0, none⟩),
   ("tier1", ⟨"Starter", 25, 10, some "price_1RcqdMRrM3oPkiXETF1HGOgU"⟩),
   ("tier2", ⟨"Business", 100, 25, some "price_1RcqdzRrM3oPkiXEWrBjpEXK"⟩),
   ("tier3", ⟨"Enterprise", 500, 50, some "price_1RcqeLRrM3oPkiXEvjDqtRT8"⟩)]

/-- Effect of the UPDATE companies SET subscription_plan = ?,
max_employees = ?, subscription_status = ? WHERE stripe_customer_id = ?
statement on one row. -/
def applyPlanUpdate (planKey : String) (maxE : Nat) (status customerId : String)
    (c : Company) : Company :=
  if c.stripe_customer_id == some customerId then
    { c with subscription_plan := planKey, max_employees := maxE,
             subscription_status := status }
  else c

/-- The updateCompanySubscription helper of src/index.js (lines 79-90):
look the plan key up in the catalog; when known, update every company row
matched by the external customer reference; when unknown, log and leave
the store untouched. -/
def updateCompanySubscription (db : DB) (customerId newPlanKey status : String) : DB :=
  match SUBSCRIPTION_PLANS.find? (fun p => p.1 == newPlanKey) with
  | some p =>
    { db with companies :=
        db.companies.map (applyPlanUpdate newPlanKey p.2.max_employees status customerId) }
  | none => db

/-- The checkout.session.completed branch of the webhook handler
(src/index.js lines 330-337): resolve the purchased price identifier to a
plan key through the catalog and resync the company, status active;
unmatched price identifiers mutate nothing. -/
def webhookCheckoutCompleted (db : DB) (customerId priceId : String) : DB :=
  match SUBSCRIPTION_PLANS.find? (fun p => p.2.priceId == some priceId) with
  | some p => updateCompanySubscription db customerId p.1 "active"
  | none => db

lemma applyPlanUpdate_idem (planKey : String) (maxE : Nat) (status customerId : String)
    (c : Company) :
    applyPlanUpdate planKey maxE status customerId
        (applyPlanUpdate planKey maxE status customerId c)
      = applyPlanUpdate planKey maxE status customerId c := by
  unfold applyPlanUpdate
  by_cases h : c.stripe_customer_id == some customerId
  · simp [h]
  · simp [h]

lemma updateCompanySubscription_idem (db : DB) (customerId newPlanKey status : String) :
    updateCompanySubscription (updateCompanySubscription db customerId newPlanKey status)
        customerId newPlanKey status
      = updateCompanySubscription db customerId newPlanKey status := by
  unfold updateCompanySubscription
  cases hfind : SUBSCRIPTION_PLANS.find? (fun p => p.1 == newPlanKey) with
  | none => simp only [hfind]
  | some p =>
    simp only [hfind]
    have hmap : ((db.companies.map
          (applyPlanUpdate newPlanKey p.2.max_employees status customerId)).map
          (applyPlanUpdate newPlanKey p.2.max_employees status customerId))
        = db.companies.map (applyPlanUpdate newPlanKey p.2.max_employees status customerId) := by
      rw [List.map_map]
      exact List.map_congr_left (fun a _ => applyPlanUpdate_idem _ _ _ _ a)
    rw [hmap]

/-- C6: replaying the same checkout-completed webhook event is a no-op
after the first application: the company update keyed by the external
customer reference writes the same plan key, seat cap and active status
again, so the whole store, in particular every company's
(subscription_plan, max_employees, subscription_status), is identical
after one and after two applications, and no counter is incremented. -/
theorem C6_webhook_idempotent (db : DB) (customerId priceId : String) :
    webhookCheckoutCompleted (webhookCheckoutCompleted db customerId priceId)
        customerId priceId
      = webhookCheckoutCompleted db customerId priceId := by
  unfold webhookCheckoutCompleted
  cases hfind : SUBSCRIPTION_PLANS.find? (fun p => p.2.priceId == some priceId) with
  | none => simp only [hfind]
  | some p =>
    simp only [hfind]
    exact updateCompanySubscription_idem db customerId p.1 "active"

/-- The comparison used by ORDER BY name on the employees table. -/
def byName (a b : Employee) : Prop := a.name ≤ b.name

instance : DecidableRel byName :=
  fun a b => inferInstanceAs (Decidable (a.name ≤ b.name))

instance : IsTotal Employee byName :=
  ⟨fun a b => le_total a.name b.name⟩

instance : IsTrans Employee byName :=
  ⟨fun _ _ _ h1 h2 => le_trans h1 h2⟩

/-- GET /api/employees of src/index.js (lines 184-191):
SELECT * FROM employees WHERE company_id = ? ORDER BY name. -/
def getEmployees (db : DB) (cid : Nat) : List Employee :=
  List.insertionSort byName (db.employees.filter (fun e => e.company_id == cid))

/-- C9: the employee listing returns exactly the employee rows of the
authenticated user's company — every returned row carries that
company_id, every employee row of the company is returned (as a
permutation of the WHERE company_id filter) — sorted ascending by the
name column. -/
theorem C9_get_employees (db : DB) (cid : Nat) :
    List.Perm (getEmployees db cid)
      (db.employees.filter (fun e => e.company_id == cid)) ∧
    (∀ e ∈ getEmployees db cid, e.company_id = cid) ∧
    (∀ e ∈ db.employees, e.company_id = cid → e ∈ getEmployees db cid) ∧
    (getEmployees db cid).Sorted byName := by
  refine ⟨List.perm_insertionSort byName _, ?_, ?_, List.sorted_insertionSort byName _⟩
  · intro e he
    have hmem := (List.mem_insertionSort byName).mp he
    have := (List.mem_filter.mp hmem).2
    simpa using this
  · intro e he hcid
    apply (List.mem_insertionSort byName).mpr
    apply List.mem_filter.mpr
    exact ⟨he, by simpa using hcid⟩

/-- Concrete store used to witness C9: three employees, two of them in
company 1, names out of order. -/
def dbC9 : DB :=
  ⟨[⟨1, "A", "free", 5, "active", none⟩, ⟨2, "B", "free", 5, "active", none⟩],
   [], [],
   [⟨1, 1, "Bob", "CA"⟩, ⟨2, 2, "Al", "CB"⟩, ⟨3, 1, "Al", "CC"⟩], []⟩

theorem C9_get_employees_witness :
    List.Perm (getEmployees dbC9 1)
      (dbC9.employees.filter (fun e => e.company_id == 1)) ∧
    (∀ e ∈ getEmployees dbC9 1, e.company_id = 1) ∧
    (∀ e ∈ dbC9.employees, e.company_id = 1 → e ∈ getEmployees dbC9 1) ∧
    (getEmployees dbC9 1).Sorted byName :=
  C9_get_employees dbC9 1

/-- Response of the login route: status, message, and the JWT payload
(user id, email, company id) when one is signed. -/
structure LoginResult where
  status : Nat
  message : String
  token : Option (Nat × String × Nat)
deriving DecidableEq, Repr

/-- SELECT * FROM users WHERE email = ?. -/
def findUserByEmail (db : DB) (email : String) : Option UserRow :=
  db.users.find? (fun u => u.email == email)

/-- POST /api/auth/login of src/index.js (lines 167-181).  bcrypt.compare
is an external collaborator and is passed in as a boolean oracle. -/
def login (db : DB) (bcryptCompare : String → String → Bool)
    (email password : String) : LoginResult :=
  if email = "" ∨ password = "" then ⟨400, "Email and password are required.", none⟩
  else
    match findUserByEmail db email with
    | none => ⟨401, "Invalid email or password.", none⟩
    | some u =>
      if bcryptCompare password u.password_hash then
        ⟨200, "Login successful!", some (u.id, u.email, u.company_id)⟩
      else ⟨401, "Invalid email or password.", none⟩

/-- C10: the two authentication-failure causes are indistinguishable to
the caller: whether no user row carries the email, or a row exists but
the presented password fails the bcrypt comparison against its stored
hash, the response is the same 401 status with the same body message
Invalid email or password and no token. -/
theorem C10_login_indistinguishable (db : DB) (cmp : String → String → Bool)
    (email password : String) (h1 : email ≠ "") (h2 : password ≠ "") :
    (findUserByEmail db email = none →
      login db cmp email password = ⟨401, "Invalid email or password.", none⟩) ∧
    (∀ u, findUserByEmail db email = some u → cmp password u.password_hash = false →
      login db cmp email password = ⟨401, "Invalid email or password.", none⟩) := by
  have hcond : ¬(email = "" ∨ password = "") := by
    rintro (h | h)
    exacts [h1 h, h2 h]
  constructor
  · intro hnone
    unfold login
    rw [if_neg hcond, hnone]
  · intro u hu hcmp
    have hred : login db cmp email password
        = if cmp password u.password_hash then
            ⟨200, "Login successful!", some (u.id, u.email, u.company_id)⟩
          else ⟨401, "Invalid email or password.", none⟩ := by
      unfold login
      rw [if_neg hcond, hu]
    rw [hred]
    simp [hcmp]

/-- Concrete store used to witness C10: one user; the witness request
presents that user's email with a password rejected by the comparison
oracle, and the oracle rejects everything. -/
def dbC10 : DB :=
  ⟨[⟨1, "Acme", "free", 5, "active", none⟩], [⟨1, 1, "a@acme.test", "HASH"⟩], [], [], []⟩

theorem C10_login_indistinguishable_witness :
    (findUserByEmail dbC10 "a@acme.test" = none →
      login dbC10 (fun _ _ => false) "a@acme.test" "pw123456"
        = ⟨401, "Invalid email or password.", none⟩) ∧
    (∀ u, findUserByEmail dbC10 "a@acme.test" = some u →
      (fun _ _ => false) "pw123456" u.password_hash = false →
      login dbC10 (fun _ _ => false) "a@acme.test" "pw123456"
        = ⟨401, "Invalid email or password.", none⟩) :=
  C10_login_indistinguishable dbC10 (fun _ _ => false) "a@acme.test" "pw123456"
    (by decide) (by decide)

/-- Row shape produced by the logs SELECT of src/index.js: log fields
plus the joined employee name and the left-joined kiosk name. -/
structure LogView where
  id : Nat
  event_type : String
  timestamp : Nat
  nfc_card_id : String
  employee_name : String
  kiosk_name : Option String
deriving DecidableEq, Repr

/-- The comparison used by ORDER BY timestamp DESC. -/
def byTimestampDesc (a b : AttendanceLog) : Prop := b.timestamp ≤ a.timestamp

instance : DecidableRel byTimestampDesc :=
  fun a b => inferInstanceAs (Decidable (b.timestamp ≤ a.timestamp))

instance : IsTotal AttendanceLog byTimestampDesc :=
  ⟨fun a b => le_total b.timestamp a.timestamp⟩

instance : IsTrans AttendanceLog byTimestampDesc :=
  ⟨fun _ _ _ h1 h2 => le_trans h2 h1⟩

/-- JOIN employees e ON al.employee_id = e.id. -/
def findEmployeeById (db : DB) (eid : Nat) : Option Employee :=
  db.employees.find? (fun e => e.id == eid)

/-- LEFT JOIN kiosks k ON al.kiosk_id = k.id. -/
def findKioskById (db : DB) (kid : Option Nat) : Option Kiosk :=
  db.kiosks.find? (fun k => kid == some k.id)

/-- The inner join of one log row with its employee (dropping the row when
the employee is gone) and the left join with its kiosk. -/
def joinLogRow (db : DB) (l : AttendanceLog) : Option LogView :=
  match findEmployeeById db l.employee_id with
  | none => none
  | some e =>
    some ⟨l.id, l.event_type, l.timestamp, l.nfc_card_id, e.name,
      (findKioskById db l.kiosk_id).map Kiosk.name⟩

/-- GET /api/logs of src/index.js (lines 250-262): WHERE al.company_id,
JOIN employees, LEFT JOIN kiosks, ORDER BY al.timestamp DESC, LIMIT 100. -/
def getLogs (db : DB) (cid : Nat) : List LogView :=
  (((db.attendance_logs.filter (fun l => l.company_id == cid)).insertionSort
      byTimestampDesc).filterMap (joinLogRow db)).take 100

/-- Row shape produced by the logs SELECT of the draft
src/unnamed/part_001 (LEFT JOIN employees, so the name may be null). -/
structure LogViewDraft where
  id : Nat
  nfc_card_id : String
  event_type : String
  timestamp : Nat
  employee_name : Option String
deriving DecidableEq, Repr

/-- The left join of one log row with its employee in the draft query. -/
def joinLogRowDraft (db : DB) (l : AttendanceLog) : LogViewDraft :=
  ⟨l.id, l.nfc_card_id, l.event_type, l.timestamp,
   (findEmployeeById db l.employee_id).map Employee.name⟩

/-- GET /api/logs of the draft src/unnamed/part_001 (lines 176-179):
WHERE al.company_id, LEFT JOIN employees, ORDER BY al.timestamp DESC and
no LIMIT clause. -/
def getLogsDraft (db : DB) (cid : Nat) : List LogViewDraft :=
  ((db.attendance_logs.filter (fun l => l.company_id == cid)).insertionSort
      byTimestampDesc).map (joinLogRowDraft db)

lemma joinLogRow_of_some (db : DB) (l : AttendanceLog) (e : Employee)
    (hf : findEmployeeById db l.employee_id = some e) :
    joinLogRow db l = some ⟨l.id, l.event_type, l.timestamp, l.nfc_card_id, e.name,
      (findKioskById db l.kiosk_id).map Kiosk.name⟩ := by
  unfold joinLogRow
  rw [hf]

lemma joinLogRow_of_none (db : DB) (l : AttendanceLog)
    (hf : findEmployeeById db l.employee_id = none) :
    joinLogRow db l = none := by
  unfold joinLogRow
  rw [hf]

lemma joinLogRow_fields (db : DB) (l : AttendanceLog) (v : LogView)
    (h : joinLogRow db l = some v) :
    v.id = l.id ∧ v.event_type = l.event_type ∧ v.timestamp = l.timestamp := by
  cases hf : findEmployeeById db l.employee_id with
  | none =>
    rw [joinLogRow_of_none db l hf] at h
    cases h
  | some e =>
    rw [joinLogRow_of_some db l e hf] at h
    injection h with h2
    rw [← h2]
    exact ⟨rfl, rfl, rfl⟩

/-- The final handler's logs query is tenant-scoped, newest-first and
capped: every returned row stems from a log of the caller's company and
keeps its fields, at most 100 rows are returned, and timestamps are
non-increasing along the result. -/
lemma getLogs_spec (db : DB) (cid : Nat) :
    (∀ v ∈ getLogs db cid, ∃ l ∈ db.attendance_logs, l.company_id = cid ∧
      v.id = l.id ∧ v.event_type = l.event_type ∧ v.timestamp = l.timestamp) ∧
    (getLogs db cid).length ≤ 100 ∧
    (getLogs db cid).Pairwise (fun a b => b.timestamp ≤ a.timestamp) := by
  refine ⟨?_, ?_, ?_⟩
  · intro v hv
    have hv2 : v ∈ ((db.attendance_logs.filter
        (fun l => l.company_id == cid)).insertionSort byTimestampDesc).filterMap
          (joinLogRow db) := by
      unfold getLogs at hv
      exact (List.take_sublist _ _).mem hv
    obtain ⟨l, hl, hjoin⟩ := List.mem_filterMap.mp hv2
    have hl2 : l ∈ db.attendance_logs.filter (fun x => x.company_id == cid) :=
      (List.mem_insertionSort byTimestampDesc).mp hl
    have hl3 := List.mem_filter.mp hl2
    exact ⟨l, hl3.1, by simpa using hl3.2, joinLogRow_fields db l v hjoin⟩
  · unfold getLogs
    exact List.length_take_le _ _
  · unfold getLogs
    have hsorted := List.sorted_insertionSort byTimestampDesc
      (db.attendance_logs.filter (fun l => l.company_id == cid))
    have hstep : ∀ {a b : AttendanceLog}, byTimestampDesc a b →
        ∀ x ∈ joinLogRow db a, ∀ y ∈ joinLogRow db b, y.timestamp ≤ x.timestamp := by
      intro a b hab x hx y hy
      have hxa := joinLogRow_fields db a x (Option.mem_def.mp hx)
      have hyb := joinLogRow_fields db b y (Option.mem_def.mp hy)
      rw [hxa.2.2, hyb.2.2]
      exact hab
    exact List.Pairwise.sublist (List.take_sublist _ _)
      (List.pairwise_filterMap.mpr (hsorted.imp hstep))

/-- A company with 101 attendance log rows, on which the draft logs route
returns more than 100 rows. -/
def logs101 : List AttendanceLog :=
  (List.range 101).map (fun i => ⟨i, 1, 1, none, "C1", "clock-in", i⟩)

/-- Concrete store exercising the missing LIMIT of the draft logs route. -/
def dbC7 : DB :=
  ⟨[⟨1, "Acme", "free", 5, "active", none⟩], [], [], [⟨1, 1, "Sam", "C1"⟩], logs101⟩

/-- C7: the claim requires the logs response to hold at most 100 rows;
the final handler (src/index.js, getLogs here) enforces LIMIT 100, but
the logs route of the draft src/unnamed/part_001 has no LIMIT clause and
returns all 101 rows of a 101-log company, so that handler violates the
cap stated by the claim and the spec. -/
theorem C7_draft_logs_uncapped :
    (getLogsDraft dbC7 1).length = 101 ∧
    ¬((getLogsDraft dbC7 1).length ≤ 100) ∧
    (getLogs dbC7 1).length ≤ 100 := by
  have hfilter : dbC7.attendance_logs.filter (fun l => l.company_id == 1) = logs101 := by
    show logs101.filter (fun l => l.company_id == 1) = logs101
    apply List.filter_eq_self.mpr
    intro a ha
    simp only [logs101, List.mem_map] at ha
    obtain ⟨i, -, rfl⟩ := ha
    rfl
  have hlen : (getLogsDraft dbC7 1).length = 101 := by
    unfold getLogsDraft
    rw [List.length_map, (List.perm_insertionSort byTimestampDesc _).length_eq, hfilter]
    simp [logs101]
  exact ⟨hlen, by omega, (getLogs_spec dbC7 1).2.1⟩

/-- DELETE /api/employees/:id of src/index.js (lines 205-212): run
DELETE FROM employees WHERE id = ? AND company_id = ? and always answer
200, whether or not a row matched. -/
def deleteEmployee (db : DB) (eid cid : Nat) : DB × ApiResult :=
  ({ db with employees :=
      db.employees.filter (fun e => !(e.id == eid && e.company_id == cid)) },
   ⟨200, "Employee successfully removed."⟩)

/-- DELETE /api/employees/:id of the draft src/unnamed/part_001 (lines
196-200): the same scoped DELETE, but answer 404 when result.changes is
zero and 200 otherwise. -/
def deleteEmployeeDraft (db : DB) (eid cid : Nat) : DB × ApiResult :=
  let remaining := db.employees.filter (fun e => !(e.id == eid && e.company_id == cid))
  if remaining.length == db.employees.length then (db, ⟨404, "Employee not found."⟩)
  else ({ db with employees := remaining }, ⟨200, "Employee deleted."⟩)

/-- In both delete handlers the DELETE is scoped to the caller's company:
an employee row of any other company always survives. -/
lemma deleteEmployee_preserves_other_tenants (db : DB) (eid cid : Nat)
    (e : Employee) (he : e ∈ db.employees) (hother : e.company_id ≠ cid) :
    e ∈ (deleteEmployee db eid cid).1.employees ∧
    e ∈ (deleteEmployeeDraft db eid cid).1.employees := by
  have hkeep : (!(e.id == eid && e.company_id == cid)) = true := by
    simp [hother]
  have hmem : e ∈ db.employees.filter (fun x => !(x.id == eid && x.company_id == cid)) :=
    List.mem_filter.mpr ⟨he, hkeep⟩
  constructor
  · exact hmem
  · unfold deleteEmployeeDraft
    by_cases h : (db.employees.filter
        (fun x => !(x.id == eid && x.company_id == cid))).length == db.employees.length
    · simp only [h]
      simpa using he
    · simp only [h]
      simpa using hmem

/-- Concrete store exercising the delete route: company 1 owns employee 1
and there is no employee 2 anywhere. -/
def dbC8 : DB :=
  ⟨[⟨1, "A", "free", 5, "active", none⟩, ⟨2, "B", "free", 5, "active", none⟩],
   [], [], [⟨1, 1, "Ann", "X"⟩], []⟩

/-- C8: deleting a non-existent employee id must answer 404 per the claim
and the spec table; the final handler (src/index.js lines 205-212) still
answers 200 with no row removed, while the draft handler of
src/unnamed/part_001 answers the required 404; the company scoping itself
holds in both: a delete aimed at another tenant's employee removes
nothing. -/
theorem C8_delete_missing_404 :
    deleteEmployee dbC8 2 1 = (dbC8, ⟨200, "Employee successfully removed."⟩) ∧
    (deleteEmployee dbC8 2 1).2.status ≠ 404 ∧
    deleteEmployeeDraft dbC8 2 1 = (dbC8, ⟨404, "Employee not found."⟩) ∧
    (deleteEmployee dbC8 1 2).1.employees = dbC8.employees ∧
    deleteEmployeeDraft dbC8 1 1
      = ({ dbC8 with employees := [] }, ⟨200, "Employee deleted."⟩) := by
  refine ⟨?_, ?_, ?_, ?_, ?_⟩ <;> decide

/-- POST /api/auth/register of src/index.js (lines 146-165): inside BEGIN
TRANSACTION insert the company (free plan, 5 seats), the user and the
default kiosk, then COMMIT; any failure triggers ROLLBACK, so the caller
observes either the untouched store or all three rows.  The failures
modelled are the schema's UNIQUE constraints (company name, user email,
kiosk api_key); bcrypt.hash and the random api key are inputs. -/
def register (db : DB) (companyName email password hash apiKey : String)
    (cId uId kId : Nat) : DB × ApiResult :=
  if companyName = "" ∨ email = "" ∨ password = "" then
    (db, ⟨400, "All fields are required."⟩)
  else if db.companies.any (fun c => c.name == companyName) then
    (db, ⟨409, "Company or email already exists."⟩)
  else if db.users.any (fun u => u.email == email) then
    (db, ⟨409, "Company or email already exists."⟩)
  else if db.kiosks.any (fun k => k.api_key == apiKey) then
    (db, ⟨409, "Company or email already exists."⟩)
  else
    ({ db with
        companies := db.companies ++ [⟨cId, companyName, "free", 5, "active", none⟩],
        users := db.users ++ [⟨uId, cId, email, hash⟩],
        kiosks := db.kiosks ++ [⟨kId, cId, "Main Kiosk", apiKey⟩] },
     ⟨201, "Company registered successfully."⟩)

/-- POST /api/auth/register of the draft src/unnamed/part_001 (lines
139-155): the same three inserts but with no transaction, so every write
that succeeded before a failure stays in the store and the catch only
answers 500. -/
def registerDraft (db : DB) (companyName email password hash apiKey : String)
    (cId uId kId : Nat) : DB × ApiResult :=
  if companyName = "" ∨ email = "" ∨ password = "" then
    (db, ⟨400, "All fields required."⟩)
  else if db.companies.any (fun c => c.name == companyName) then
    (db, ⟨500, "Registration failed."⟩)
  else
    let db1 : DB := { db with
      companies := db.companies ++ [⟨cId, companyName, "free", 5, "active", none⟩] }
    if db1.users.any (fun u => u.email == email) then
      (db1, ⟨500, "Registration failed."⟩)
    else
      let db2 : DB := { db1 with users := db1.users ++ [⟨uId, cId, email, hash⟩] }
      if db2.kiosks.any (fun k => k.api_key == apiKey) then
        (db2, ⟨500, "Registration failed."⟩)
      else
        ({ db2 with kiosks := db2.kiosks ++ [⟨kId, cId, "Main Kiosk", apiKey⟩] },
         ⟨201, "Company registered successfully."⟩)

/-- The transactional handler of src/index.js is all-or-nothing: the
resulting store is the input store, or the input store plus exactly the
new company, its user and its kiosk. -/
lemma register_atomic (db : DB) (companyName email password hash apiKey : String)
    (cId uId kId : Nat) :
    (register db companyName email password hash apiKey cId uId kId).1 = db ∨
    (register db companyName email password hash apiKey cId uId kId).1 =
      { db with
        companies := db.companies ++ [(⟨cId, companyName, "free", 5, "active", none⟩ : Company)],
        users := db.users ++ [(⟨uId, cId, email, hash⟩ : UserRow)],
        kiosks := db.kiosks ++ [(⟨kId, cId, "Main Kiosk", apiKey⟩ : Kiosk)] } := by
  unfold register
  split_ifs
  · exact Or.inl rfl
  · exact Or.inl rfl
  · exact Or.inl rfl
  · exact Or.inl rfl
  · exact Or.inr rfl

/-- Concrete store exercising the draft registration: a company named
Other already owns the only user, whose email the new registration
reuses. -/
def dbC5 : DB :=
  ⟨[⟨1, "Other", "free", 5, "active", none⟩], [⟨1, 1, "a@b.c", "H"⟩], [], [], []⟩

/-- C5: registration must be atomic per the claim and the spec; the final
handler (src/index.js lines 146-165, register here) is, but the draft
handler of src/unnamed/part_001 runs the same inserts with no transaction:
registering Acme under the already-taken email a@b.c fails with 500 after
the company insert, leaving company 2 Acme in the store with no user row
— a partial tenant — while the transactional handler leaves the store
untouched on the same input. -/
theorem C5_draft_partial_tenant :
    ((registerDraft dbC5 "Acme" "a@b.c" "pw123456" "H2" "KEY" 2 2 1).2.status = 500) ∧
    (∃ c ∈ (registerDraft dbC5 "Acme" "a@b.c" "pw123456" "H2" "KEY" 2 2 1).1.companies,
      c.name = "Acme" ∧ c.id = 2) ∧
    (∀ u ∈ (registerDraft dbC5 "Acme" "a@b.c" "pw123456" "H2" "KEY" 2 2 1).1.users,
      u.company_id ≠ 2) ∧
    register dbC5 "Acme" "a@b.c" "pw123456" "H2" "KEY" 2 2 1
      = (dbC5, ⟨409, "Company or email already exists."⟩) := by
  refine ⟨?_, ?_, ?_, ?_⟩ <;> decide

lemma employeeCount_insert (db : DB) (newId cid : Nat) (ename card : String) :
    employeeCount (insertEmployee db newId cid ename card) cid
      = employeeCount db cid + 1 := by
  unfold employeeCount insertEmployee
  simp [List.filter_append]

/-- Run sequentially, the gate keeps the seat invariant: if the company's
count is within its cap before a POST /api/employees, it still is after. -/
lemma postEmployees_serial_cap (db : DB) (cid newId : Nat) (ename card : String)
    (c : Company) (hfind : findCompany db cid = some c)
    (hcap : employeeCount db cid ≤ c.max_employees) :
    employeeCount (postEmployees db cid ename card newId).1 cid ≤ c.max_employees := by
  unfold postEmployees
  cases hgate : checkEmployeeLimit db cid with
  | reject s m =>
    simp only [hgate]
    exact hcap
  | permit =>
    simp only [hgate]
    by_cases hf : ename = "" ∨ card = ""
    · rw [if_pos hf]
      exact hcap
    · rw [if_neg hf]
      by_cases hok : employeesInsertOk db cid card = true
      · rw [if_pos hok]
        have hlt : ¬employeeCount db cid ≥ c.max_employees := by
          rw [checkEmployeeLimit_of_some db cid c hfind] at hgate
          by_cases ha : c.subscription_status ≠ "active"
          · rw [if_pos ha] at hgate
            cases hgate
          · rw [if_neg ha] at hgate
            by_cases hb : employeeCount db cid ≥ c.max_employees
            · rw [if_pos hb] at hgate
              cases hgate
            · exact hb
        show employeeCount (insertEmployee db newId cid ename card) cid ≤ c.max_employees
        have := employeeCount_insert db newId cid ename card
        omega
      · rw [if_neg hok]
        exact hcap

/-- One pending add-employee request of the interleaving model. -/
structure AddReq where
  cid : Nat
  ename : String
  card : String
deriving DecidableEq, Repr

/-- Progress of one request through the two awaits of the route: the
checkEmployeeLimit read, then the INSERT. -/
inductive ReqPhase
  | start
  | checked (ok : Bool)
  | finished (inserted : Bool)
deriving DecidableEq, Repr

/-- Shared store plus the per-request progress. -/
structure ConcState where
  db : DB
  phases : List ReqPhase
deriving DecidableEq, Repr

/-- One scheduler step runs the next await of request i against the
current shared store.  The check step evaluates checkEmployeeLimit; the
insert step (reached only when that request's own check passed) runs the
INSERT subject to the uniqueness constraint.  src/index.js opens no
transaction and takes no lock between the two steps, which is exactly
what this model reflects. -/
def concStep (reqs : List AddReq) (s : ConcState) (i newId : Nat) : ConcState :=
  match reqs.get? i, s.phases.get? i with
  | some r, some ReqPhase.start =>
    let verdict : Bool := checkEmployeeLimit s.db r.cid == GateResult.permit
    { s with phases := s.phases.set i (ReqPhase.checked verdict) }
  | some r, some (ReqPhase.checked true) =>
    if employeesInsertOk s.db r.cid r.card then
      { db := insertEmployee s.db newId r.cid r.ename r.card,
        phases := s.phases.set i (ReqPhase.finished true) }
    else { s with phases := s.phases.set i (ReqPhase.finished false) }
  | some _, some (ReqPhase.checked false) =>
    { s with phases := s.phases.set i (ReqPhase.finished false) }
  | _, _ => s

/-- Run a whole schedule; each entry names the request to advance and the
fresh row id its INSERT would take. -/
def runSchedule (reqs : List AddReq) : ConcState → List (Nat × Nat) → ConcState
  | s, [] => s
  | s, (i, newId) :: rest => runSchedule reqs (concStep reqs s i newId) rest

/-- An active free-plan company (cap 5) that already has 4 employees. -/
def dbC3 : DB :=
  ⟨[⟨1, "Acme", "free", 5, "active", none⟩], [], [],
   [⟨1, 1, "E1", "D1"⟩, ⟨2, 1, "E2", "D2"⟩, ⟨3, 1, "E3", "D3"⟩, ⟨4, 1, "E4", "D4"⟩], []⟩

/-- Two concurrent add-employee requests for the same company. -/
def reqsC3 : List AddReq := [⟨1, "Eve", "D5"⟩, ⟨1, "Fay", "D6"⟩]

/-- The interleaving check A, check B, insert A, insert B. -/
def c3final : ConcState :=
  runSchedule reqsC3 ⟨dbC3, [ReqPhase.start, ReqPhase.start]⟩ [(0, 5), (1, 6), (0, 5), (1, 6)]

/-- C3: the claim asserts the count-then-insert sequence is atomic, but
src/index.js runs checkEmployeeLimit and the INSERT as two separate
awaits with no transaction or lock: under the schedule check A, check B,
insert A, insert B against an active 5-seat company holding 4 employees,
both requests pass the gate and both insert, leaving 6 employees — the
cap is jointly exceeded while the subscription stays active, which the
claim rules out. -/
theorem C3_seat_gate_race :
    employeeCount dbC3 1 = 4 ∧
    findCompany dbC3 1 = some ⟨1, "Acme", "free", 5, "active", none⟩ ∧
    c3final.phases = [ReqPhase.finished true, ReqPhase.finished true] ∧
    findCompany c3final.db 1 = some ⟨1, "Acme", "free", 5, "active", none⟩ ∧
    employeeCount c3final.db 1 = 6 ∧
    ¬(employeeCount c3final.db 1 ≤ 5) := by
  refine ⟨?_, ?_, ?_, ?_, ?_, ?_⟩ <;> decide
